import Mathlib

/-!
Shallow embedding of src/src/lib/strapi.ts (a resilient Strapi CMS client).

Modelling conventions:
- JavaScript string truthiness (the checks written as  if (!x)  in the source,
  where x is a string, undefined or null) is modelled by the function truthy
  on Option String: none and some "" are falsy, every other string is truthy.
- The module-level environment (PUBLIC_STRAPI_URL, STRAPI_API_TOKEN,
  import.meta.env.DEV / PROD / MODE) is modelled by the structure Env passed
  explicitly to each function.
- A JavaScript template literal position holding a possibly-undefined value
  is modelled by tmpl: undefined stringifies to "undefined".
- The behaviour of the network and the filesystem is an explicit oracle:
  NetOutcome gives the outcome of one fetch call (a thrown rejection, which
  covers network errors and the 10-second AbortSignal timeout, or a response
  with a status, a statusText and a body whose further decoding may itself
  throw), and ImgWorld additionally gives the outcome of new URL(...).pathname
  parsing, fs.existsSync, and whether mkdirSync / writeFileSync throw.
- Every catch-block of the source becomes an explicit fallback branch, so the
  embedded functions are total; side effects (the URL fetched, files written,
  directories created, console lines) are returned in effect records.
- String.startsWith and String.split of JavaScript are re-implemented over
  List Char (startsWithStr, popSegment) so that concrete instances reduce in
  the kernel; they agree with the JavaScript semantics on all inputs.
-/

namespace Strapi

/-- JavaScript truthiness of a string-or-undefined-or-null value:
null, undefined and the empty string are falsy. -/
def truthy : Option String → Bool
  | none => false
  | some s => !s.toList.isEmpty

/-- Template-literal interpolation of a possibly-undefined string:
undefined renders as the text "undefined". -/
def tmpl : Option String → String
  | none => "undefined"
  | some s => s

/-- Prefix test on character lists (JavaScript String.prototype.startsWith,
case-sensitive). -/
def charsPrefix : List Char → List Char → Bool
  | [], _ => true
  | _ :: _, [] => false
  | c :: cs, d :: ds => c == d && charsPrefix cs ds

/-- s.startsWith(pre) of JavaScript. -/
def startsWithStr (s pre : String) : Bool :=
  charsPrefix pre.toList s.toList

/-- Split a character list at every slash; like JavaScript split, the result
is never empty (the empty input gives one empty segment). -/
def splitSlash : List Char → List (List Char)
  | [] => [[]]
  | c :: cs =>
    match splitSlash cs with
    | [] => [[]]
    | h :: t => if c == '/' then [] :: h :: t else (c :: h) :: t

/-- urlPath.split('/').pop() of the source: the last slash-separated segment
of a string (possibly empty, e.g. for a path that ends in a slash). -/
def popSegment (s : String) : String :=
  String.mk ((splitSlash s.toList).getLastD [])

/-- The module-level environment of strapi.ts: PUBLIC_STRAPI_URL,
STRAPI_API_TOKEN, and the Vite flags import.meta.env.DEV, .PROD, .MODE. -/
structure Env where
  strapiUrl : Option String
  strapiToken : Option String
  dev : Bool
  prod : Bool
  mode : String

/-- Outcome of one fetch(...) call whose successfully-decoded body has type B.
throws covers network failure and the AbortSignal timeout rejection; a
response carries status, statusText, and a body decode that may itself throw
(response.json() or response.arrayBuffer() rejecting). -/
inductive NetOutcome (B : Type) where
  | throws
  | response (status : Nat) (statusText : String) (body : Except Unit B)

/-- response.ok of the WHATWG fetch specification: status in 200..299. -/
def responseOk (status : Nat) : Bool :=
  200 ≤ status && status ≤ 299

/-- The 10000 ms timeout passed to AbortSignal.timeout in both fetchers. -/
def fetchTimeoutMs : Nat := 10000

-- ## Response shapes (from the TypeScript interfaces)

/-- Pagination block of StrapiResponse.meta. -/
structure Pagination where
  page : Int
  pageSize : Int
  pageCount : Int
  total : Int
deriving DecidableEq

/-- meta field of StrapiResponse: an optional pagination block. -/
structure RespMeta where
  pagination : Option Pagination
deriving DecidableEq

/-- StrapiResponse of the source: a data array and a meta record. -/
structure StrapiResponse (T : Type) where
  data : List T
  meta : RespMeta
deriving DecidableEq

/-- HomepageResponse of the source: a nullable data document and an
arbitrary-record meta, modelled as a string association list. -/
structure HomepageResponse (T : Type) where
  data : Option T
  meta : List (String × String)
deriving DecidableEq

-- ## fetchStrapi (collection fetcher)

/-- The request URL built by fetchStrapi from the base URL and endpoint. -/
def collectionUrl (env : Env) (endpoint : String) : String :=
  tmpl env.strapiUrl ++ "/api/" ++ endpoint ++
    "?populate[image][fields][0]=url&populate[image][fields][1]=alternativeText&populate[image][fields][2]=formats&populate[cuisine][fields][0]=name"

/-- The request URL built by fetchStrapiSingle. -/
def singleUrl (env : Env) (endpoint : String) : String :=
  tmpl env.strapiUrl ++ "/api/" ++ endpoint ++ "?populate[heroSection][populate]=heroImage"

/-- The error message chosen for a non-ok response of fetchStrapi: the 404,
401, 403 and 500-or-above branches override a statusText-based default. -/
def classifyFetchError (endpoint statusText : String) (status : Nat) : String :=
  if status == 404 then "Endpoint not found: " ++ endpoint
  else if status == 401 then "Authentication required. Please check your API token."
  else if status == 403 then "Access forbidden. Your API token may not have the required permissions."
  else if 500 ≤ status then "Strapi server error. Please try again later."
  else "Failed to fetch from Strapi: " ++ statusText

/-- The error message chosen for a non-ok response of fetchStrapiSingle; only
the default branch differs from classifyFetchError. -/
def classifySingleError (endpoint statusText : String) (status : Nat) : String :=
  if status == 404 then "Endpoint not found: " ++ endpoint
  else if status == 401 then "Authentication required. Please check your API token."
  else if status == 403 then "Access forbidden. Your API token may not have the required permissions."
  else if 500 ≤ status then "Strapi server error. Please try again later."
  else "Failed to fetch " ++ endpoint ++ ": " ++ statusText

/-- Console lines emitted by the catch-block of both fetchers: detailed in
dev mode, a terse fallback notice otherwise. -/
def fetchCatchLogs (env : Env) (endpoint errDetail tail : String) : List String :=
  if env.dev then
    ["❌ Strapi fetch error for " ++ endpoint ++ ": " ++ errDetail, tail]
  else
    ["Using fallback content for " ++ endpoint ++ " (Strapi unavailable)"]

/-- Result of one embedded fetcher call: the value returned to the caller,
the URL fetched (none when no network call was issued), and console lines. -/
structure FetchEff (R : Type) where
  result : R
  fetchedUrl : Option String
  logs : List String
deriving DecidableEq

/-- Embedding of fetchStrapi (strapi.ts lines 112-176). Unconfigured base URL
short-circuits to the empty response with no network call; a thrown fetch, a
non-ok status (whose classified message is thrown and then caught) and a
throwing response.json() all fall back to the empty response; an ok parsed
body is returned verbatim. -/
def fetchStrapi (T : Type) (env : Env) (net : NetOutcome (StrapiResponse T))
    (endpoint : String) : FetchEff (StrapiResponse T) :=
  if truthy env.strapiUrl = false then
    { result := ⟨[], ⟨none⟩⟩
      fetchedUrl := none
      logs := if env.dev then
          ["ℹ️  Strapi not configured - returning empty data for " ++ endpoint]
        else [] }
  else
    let url := collectionUrl env endpoint
    match net with
    | .throws =>
        { result := ⟨[], ⟨none⟩⟩
          fetchedUrl := some url
          logs := fetchCatchLogs env endpoint "TypeError: fetch failed"
            "→ Returning empty data - pages will use fallback content" }
    | .response status statusText body =>
        if responseOk status = false then
          { result := ⟨[], ⟨none⟩⟩
            fetchedUrl := some url
            logs := fetchCatchLogs env endpoint
              (classifyFetchError endpoint statusText status)
              "→ Returning empty data - pages will use fallback content" }
        else
          match body with
          | .error _ =>
              { result := ⟨[], ⟨none⟩⟩
                fetchedUrl := some url
                logs := fetchCatchLogs env endpoint "SyntaxError: invalid JSON"
                  "→ Returning empty data - pages will use fallback content" }
          | .ok d =>
              { result := d
                fetchedUrl := some url
                logs := if env.dev then
                    ["✓ Successfully fetched " ++ toString d.data.length ++
                      " items from " ++ endpoint]
                  else [] }

/-- Embedding of fetchStrapiSingle (strapi.ts lines 179-240); identical
control flow to fetchStrapi with the null-data fallback. -/
def fetchStrapiSingle (T : Type) (env : Env)
    (net : NetOutcome (HomepageResponse T)) (endpoint : String) :
    FetchEff (HomepageResponse T) :=
  if truthy env.strapiUrl = false then
    { result := ⟨none, []⟩
      fetchedUrl := none
      logs := if env.dev then
          ["ℹ️  Strapi not configured - returning null data for " ++ endpoint]
        else [] }
  else
    let url := singleUrl env endpoint
    match net with
    | .throws =>
        { result := ⟨none, []⟩
          fetchedUrl := some url
          logs := fetchCatchLogs env endpoint "TypeError: fetch failed"
            "→ Returning null data - pages will use fallback content" }
    | .response status statusText body =>
        if responseOk status = false then
          { result := ⟨none, []⟩
            fetchedUrl := some url
            logs := fetchCatchLogs env endpoint
              (classifySingleError endpoint statusText status)
              "→ Returning null data - pages will use fallback content" }
        else
          match body with
          | .error _ =>
              { result := ⟨none, []⟩
                fetchedUrl := some url
                logs := fetchCatchLogs env endpoint "SyntaxError: invalid JSON"
                  "→ Returning null data - pages will use fallback content" }
          | .ok d =>
              { result := d
                fetchedUrl := some url
                logs := if env.dev then ["✓ Successfully fetched " ++ endpoint]
                  else [] }

/-- True exactly when the network or body decode failed for this outcome:
a thrown fetch (network error or timeout), a non-ok status, or a throwing
body decode. -/
def netFails {B : Type} : NetOutcome B → Bool
  | .throws => true
  | .response status _ body =>
      !responseOk status ||
        (match body with
         | .error _ => true
         | .ok _ => false)

-- ## getStrapiMedia (media URL resolver)

/-- Embedding of getStrapiMedia (strapi.ts lines 311-326): falsy input gives
null, a string starting with "http" is returned unchanged, a relative path
gives null when the base URL is falsy and the concatenation otherwise. -/
def getStrapiMedia (env : Env) (url : Option String) : Option String :=
  if truthy url = false then none
  else
    let u := url.getD ""
    if startsWithStr u "http" then some u
    else if truthy env.strapiUrl = false then none
    else some (tmpl env.strapiUrl ++ u)

-- ## downloadStrapiImage (image cache pipeline)

/-- The absolute-ized URL computed at strapi.ts line 258: the input itself
when it starts with "http", otherwise the template interpolation of
PUBLIC_STRAPI_URL followed by the input. -/
def downloadFullUrl (env : Env) (u : String) : String :=
  if startsWithStr u "http" then u else tmpl env.strapiUrl ++ u

/-- Binary image data, abstractly: a byte sequence. -/
abbrev Bytes := List Nat

/-- Oracle for one downloadStrapiImage run: the pathname that new URL(...)
yields (none when the URL constructor throws), the outcome of the image
fetch, fs.existsSync of the uploads directory, whether mkdirSync or
writeFileSync throw, and process.cwd(). -/
structure ImgWorld where
  parsePathname : String → Option String
  net : NetOutcome Bytes
  dirExists : Bool
  mkdirThrows : Bool
  writeThrows : Bool
  cwd : String

/-- Effects of one downloadStrapiImage run: the returned value, the URLs
fetched, the files written (path and bytes; writeFileSync overwrites an
existing file of the same name), and the directories created. -/
structure ImgEff where
  result : Option String
  fetched : List String
  writes : List (String × Bytes)
  mkdirs : List String
deriving DecidableEq

/-- path.join(process.cwd(), 'public', 'uploads') of the source; path.join
with plain segments is slash-separated concatenation. -/
def uploadsDir (w : ImgWorld) : String :=
  w.cwd ++ "/public/uploads"

/-- The try-block of the production branch of downloadStrapiImage (strapi.ts
lines 262-304), applied to the already absolute-ized URL. Every caught
exception (URL constructor, fetch rejection, body read, mkdirSync,
writeFileSync) and every non-ok status falls back to the full remote URL;
the success path writes the bytes and returns the site-relative path. The
filename local of the source (urlPath.split('/').pop()) is written as
popSegment of the pathname at each of its uses. -/
def downloadProd (w : ImgWorld) (fullUrl : String) : ImgEff :=
  match w.parsePathname fullUrl with
  | none => ⟨some fullUrl, [], [], []⟩
  | some urlPath =>
    if popSegment urlPath = "" then ⟨some fullUrl, [], [], []⟩
    else
      match w.net with
      | .throws => ⟨some fullUrl, [fullUrl], [], []⟩
      | .response status _ body =>
        if responseOk status = false then ⟨some fullUrl, [fullUrl], [], []⟩
        else
          match body with
          | .error _ => ⟨some fullUrl, [fullUrl], [], []⟩
          | .ok buf =>
            if !w.dirExists && w.mkdirThrows then
              ⟨some fullUrl, [fullUrl], [], []⟩
            else if w.writeThrows then
              ⟨some fullUrl, [fullUrl], [],
                if w.dirExists then [] else [uploadsDir w]⟩
            else
              ⟨some ("/uploads/" ++ popSegment urlPath), [fullUrl],
                [(uploadsDir w ++ "/" ++ popSegment urlPath, buf)],
                if w.dirExists then [] else [uploadsDir w]⟩

/-- Embedding of downloadStrapiImage (strapi.ts lines 244-309). Falsy input
returns null; dev mode delegates to getStrapiMedia; production mode runs the
try-block downloadProd on the absolute-ized URL; a runtime mode that is
neither dev nor production falls through to getStrapiMedia. -/
def downloadStrapiImage (env : Env) (w : ImgWorld) (url : Option String) : ImgEff :=
  if truthy url = false then ⟨none, [], [], []⟩
  else if env.dev then ⟨getStrapiMedia env url, [], [], []⟩
  else if env.prod || env.mode == "production" then
    downloadProd w (downloadFullUrl env (url.getD ""))
  else ⟨getStrapiMedia env url, [], [], []⟩

-- ## Spec-side predicate (for comparing the spec wording with the code)

/-- Helper for schemeQualified: accepts further scheme letters until the
separator "://" is reached. -/
def schemeTail : List Char → Bool
  | ':' :: '/' :: '/' :: _ => true
  | c :: cs => c.isAlpha && schemeTail cs
  | [] => false

/-- Written from the wording of the spec, for comparison with the code: a
string is a scheme-qualified absolute URL when it starts with a nonempty
alphabetic scheme followed by the separator "://". -/
def schemeQualified (s : String) : Bool :=
  match s.toList with
  | [] => false
  | c :: cs => c.isAlpha && schemeTail cs

-- ## Concrete fixtures used by witnesses and counterexamples

/-- A configured production environment with an https base URL. -/
def env0 : Env := ⟨some "https://cms.example.com", none, false, true, "production"⟩

/-- An unconfigured environment (PUBLIC_STRAPI_URL unset). -/
def envOff : Env := ⟨none, none, false, true, "production"⟩

/-- A configured development environment. -/
def envDev : Env := ⟨some "https://cms.example.com", none, true, false, "development"⟩

/-- A configured environment whose base URL lacks a scheme. -/
def envNoScheme : Env := ⟨some "cms.example.com", none, false, true, "production"⟩

/-- Four bytes of image data for the concrete download world. -/
def pngBytes : Bytes := [137, 80, 78, 71]

/-- A healthy concrete world: URL parsing yields the expected pathname, the
fetch succeeds with pngBytes, the uploads directory is absent and the
filesystem does not throw. -/
def w0 : ImgWorld :=
  ⟨fun _ => some "/uploads/plate.jpg", .response 200 "OK" (.ok pngBytes),
    false, false, false, "/site"⟩

-- ## Shared helper lemmas

theorem charsPrefix_append (p l m : List Char) (h : charsPrefix p l = true) :
    charsPrefix p (l ++ m) = true := by
  induction p generalizing l with
  | nil => rfl
  | cons c cs ih =>
    cases l with
    | nil => simp [charsPrefix] at h
    | cons d ds =>
      simp only [charsPrefix, Bool.and_eq_true] at h
      simp only [List.cons_append, charsPrefix, Bool.and_eq_true]
      exact ⟨h.1, ih ds h.2⟩

theorem strAppend_assoc (a b c : String) : a ++ b ++ c = a ++ (b ++ c) := by
  apply String.ext
  simp [String.data_append]

theorem startsWithStr_append (b s p : String) (h : startsWithStr b p = true) :
    startsWithStr (b ++ s) p = true := by
  unfold startsWithStr at h ⊢
  have hd : (b ++ s).toList = b.toList ++ s.toList := by
    cases b
    cases s
    simp [String.toList, String.data_append]
  rw [hd]
  exact charsPrefix_append _ _ _ h

theorem startsWith_http_ne_empty (u : String) (h : startsWithStr u "http" = true) :
    u.toList.isEmpty = false := by
  cases hc : u.toList with
  | nil =>
    unfold startsWithStr at h
    rw [hc] at h
    exact absurd h (by decide)
  | cons a l => rfl

theorem truthy_some_of_ne (s : String) (h : s ≠ "") : truthy (some s) = true := by
  unfold truthy
  cases s with
  | mk l =>
    cases l with
    | nil => exact absurd rfl h
    | cons c cs => rfl

theorem truthy_of_startsWith_http (s : String) (h : startsWithStr s "http" = true) :
    truthy (some s) = true := by
  show (!s.toList.isEmpty) = true
  rw [startsWith_http_ne_empty s h]
  rfl

theorem getStrapiMedia_none (env : Env) : getStrapiMedia env none = none := by
  unfold getStrapiMedia
  rw [if_pos (show truthy (none : Option String) = false by decide)]

theorem getStrapiMedia_empty (env : Env) : getStrapiMedia env (some "") = none := by
  unfold getStrapiMedia
  rw [if_pos (by decide)]

theorem getStrapiMedia_http (env : Env) (s : String)
    (hs : startsWithStr s "http" = true) : getStrapiMedia env (some s) = some s := by
  unfold getStrapiMedia
  rw [if_neg (by rw [truthy_of_startsWith_http s hs]; decide)]
  simp only [Option.getD_some]
  rw [if_pos hs]

theorem getStrapiMedia_rel_unconfigured (env : Env) (s : String) (hs0 : s ≠ "")
    (hs : startsWithStr s "http" = false) (hb : truthy env.strapiUrl = false) :
    getStrapiMedia env (some s) = none := by
  unfold getStrapiMedia
  rw [if_neg (by rw [truthy_some_of_ne s hs0]; decide)]
  simp only [Option.getD_some]
  rw [if_neg (by rw [hs]; decide), if_pos hb]

theorem getStrapiMedia_rel (env : Env) (s : String) (hs0 : s ≠ "")
    (hs : startsWithStr s "http" = false) (hb : truthy env.strapiUrl = true) :
    getStrapiMedia env (some s) = some (tmpl env.strapiUrl ++ s) := by
  unfold getStrapiMedia
  rw [if_neg (by rw [truthy_some_of_ne s hs0]; decide)]
  simp only [Option.getD_some]
  rw [if_neg (by rw [hs]; decide), if_neg (by rw [hb]; decide)]

theorem getStrapiMedia_shape (env : Env) (url : Option String) :
    getStrapiMedia env url = none ∨
      getStrapiMedia env url = some (downloadFullUrl env (url.getD "")) := by
  cases url with
  | none => exact Or.inl (getStrapiMedia_none env)
  | some s =>
    by_cases hs0 : s = ""
    · subst hs0
      exact Or.inl (getStrapiMedia_empty env)
    · cases hs : startsWithStr s "http" with
      | true =>
        right
        rw [getStrapiMedia_http env s hs]
        simp only [Option.getD_some]
        unfold downloadFullUrl
        rw [if_pos hs]
      | false =>
        cases hb : truthy env.strapiUrl with
        | false => exact Or.inl (getStrapiMedia_rel_unconfigured env s hs0 hs hb)
        | true =>
          right
          rw [getStrapiMedia_rel env s hs0 hs hb]
          simp only [Option.getD_some]
          unfold downloadFullUrl
          rw [if_neg (by rw [hs]; decide)]

theorem uploadsPath_eq (w : ImgWorld) (fn : String) :
    uploadsDir w ++ "/" ++ fn = w.cwd ++ "/public/uploads/" ++ fn := by
  unfold uploadsDir
  have h : ("/public/uploads" : String) ++ "/" = "/public/uploads/" := by decide
  rw [strAppend_assoc w.cwd "/public/uploads" "/", h]

theorem responseOk_eq_false_of_ge_400 (s : Nat) (h : 400 ≤ s) :
    responseOk s = false := by
  unfold responseOk
  have h2 : ¬ (s ≤ 299) := by omega
  simp [h2]

theorem fetchStrapi_badStatus (T : Type) (env : Env) (status : Nat)
    (t : String) (body : Except Unit (StrapiResponse T)) (endpoint : String)
    (hok : responseOk status = false) :
    (fetchStrapi T env (.response status t body) endpoint).result = ⟨[], ⟨none⟩⟩ := by
  unfold fetchStrapi
  split
  · rfl
  · simp [hok]

theorem fetchStrapiSingle_badStatus (T : Type) (env : Env) (status : Nat)
    (t : String) (body : Except Unit (HomepageResponse T)) (endpoint : String)
    (hok : responseOk status = false) :
    (fetchStrapiSingle T env (.response status t body) endpoint).result = ⟨none, []⟩ := by
  unfold fetchStrapiSingle
  split
  · rfl
  · simp [hok]

-- ## Claim theorems

/-- C1: for every endpoint name and every behaviour of the network and parser
(any non-ok HTTP status, a request that times out or otherwise rejects, a
thrown exception during fetch or JSON parsing), fetchStrapi never raises to
its caller (it is a total function into FetchEff, every throw of the source
being a caught branch) and on any such failure returns exactly
the record with data empty and meta empty; fetchStrapiSingle likewise
returns the record with data null and meta empty. -/
theorem fetch_failure_returns_empty (T : Type) (env : Env)
    (net : NetOutcome (StrapiResponse T)) (netS : NetOutcome (HomepageResponse T))
    (endpoint endpointS : String)
    (h : netFails net = true) (hS : netFails netS = true) :
    (fetchStrapi T env net endpoint).result = ⟨[], ⟨none⟩⟩ ∧
    (fetchStrapiSingle T env netS endpointS).result = ⟨none, []⟩ := by
  constructor
  · cases net with
    | throws =>
      unfold fetchStrapi
      split
      · rfl
      · rfl
    | response status t body =>
      cases hok : responseOk status with
      | false => exact fetchStrapi_badStatus T env status t body endpoint hok
      | true =>
        cases body with
        | error e =>
          unfold fetchStrapi
          split
          · rfl
          · simp [hok]
        | ok d =>
          exfalso
          rw [netFails, hok] at h
          simp at h
  · cases netS with
    | throws =>
      unfold fetchStrapiSingle
      split
      · rfl
      · rfl
    | response status t body =>
      cases hok : responseOk status with
      | false => exact fetchStrapiSingle_badStatus T env status t body endpointS hok
      | true =>
        cases body with
        | error e =>
          unfold fetchStrapiSingle
          split
          · rfl
          · simp [hok]
        | ok d =>
          exfalso
          rw [netFails, hok] at hS
          simp at hS

/-- C1 witness: a thrown fetch for the collection and a 500 status with a
failing body parse for the singleton both yield the exact fallbacks. -/
theorem fetch_failure_returns_empty_witness :
    (fetchStrapi Unit env0 .throws "menu-items").result = ⟨[], ⟨none⟩⟩ ∧
    (fetchStrapiSingle Unit env0
      (.response 500 "Internal Server Error" (.error ())) "homepage").result =
      ⟨none, []⟩ :=
  fetch_failure_returns_empty Unit env0 .throws
    (.response 500 "Internal Server Error" (.error ())) "menu-items" "homepage"
    (by decide) (by decide)

/-- C2: when no base URL is configured, fetchStrapi returns the empty
response and fetchStrapiSingle the null response, both with no network call
issued (fetchedUrl is none). -/
theorem unconfigured_short_circuit (T : Type) (env : Env)
    (net : NetOutcome (StrapiResponse T)) (netS : NetOutcome (HomepageResponse T))
    (endpoint endpointS : String) (h : truthy env.strapiUrl = false) :
    (fetchStrapi T env net endpoint).result = ⟨[], ⟨none⟩⟩ ∧
    (fetchStrapi T env net endpoint).fetchedUrl = none ∧
    (fetchStrapiSingle T env netS endpointS).result = ⟨none, []⟩ ∧
    (fetchStrapiSingle T env netS endpointS).fetchedUrl = none := by
  unfold fetchStrapi fetchStrapiSingle
  rw [h]
  simp

/-- C2 witness: with PUBLIC_STRAPI_URL unset, both fetchers short-circuit
even when the network oracle would throw. -/
theorem unconfigured_short_circuit_witness :
    (fetchStrapi Unit envOff .throws "menu-items").result = ⟨[], ⟨none⟩⟩ ∧
    (fetchStrapi Unit envOff .throws "menu-items").fetchedUrl = none ∧
    (fetchStrapiSingle Unit envOff .throws "homepage").result = ⟨none, []⟩ ∧
    (fetchStrapiSingle Unit envOff .throws "homepage").fetchedUrl = none :=
  unconfigured_short_circuit Unit envOff .throws .throws "menu-items" "homepage"
    (by decide)

/-- C3: for every HTTP status at least 400, fetchStrapi returns the empty
response and fetchStrapiSingle the null response, and the returned value is
identical across any two such statuses (hence independent of which
classification branch of classifyFetchError / classifySingleError produced
the logged message). -/
theorem status_classification_cosmetic (T : Type) (env : Env)
    (s1 s2 : Nat) (t1 t2 : String)
    (b1 b2 : Except Unit (StrapiResponse T)) (bS1 bS2 : Except Unit (HomepageResponse T))
    (endpoint : String) (h1 : 400 ≤ s1) (h2 : 400 ≤ s2) :
    (fetchStrapi T env (.response s1 t1 b1) endpoint).result = ⟨[], ⟨none⟩⟩ ∧
    (fetchStrapi T env (.response s1 t1 b1) endpoint).result =
      (fetchStrapi T env (.response s2 t2 b2) endpoint).result ∧
    (fetchStrapiSingle T env (.response s1 t1 bS1) endpoint).result = ⟨none, []⟩ ∧
    (fetchStrapiSingle T env (.response s1 t1 bS1) endpoint).result =
      (fetchStrapiSingle T env (.response s2 t2 bS2) endpoint).result := by
  have k1 := fetchStrapi_badStatus T env s1 t1 b1 endpoint
    (responseOk_eq_false_of_ge_400 s1 h1)
  have k2 := fetchStrapi_badStatus T env s2 t2 b2 endpoint
    (responseOk_eq_false_of_ge_400 s2 h2)
  have k3 := fetchStrapiSingle_badStatus T env s1 t1 bS1 endpoint
    (responseOk_eq_false_of_ge_400 s1 h1)
  have k4 := fetchStrapiSingle_badStatus T env s2 t2 bS2 endpoint
    (responseOk_eq_false_of_ge_400 s2 h2)
  exact ⟨k1, k1.trans k2.symm, k3, k3.trans k4.symm⟩

/-- C3 witness: a 404 and a 503 produce the same returned values. -/
theorem status_classification_cosmetic_witness :
    (fetchStrapi Unit env0 (.response 404 "Not Found" (.error ()))
      "menu-items").result = ⟨[], ⟨none⟩⟩ ∧
    (fetchStrapi Unit env0 (.response 404 "Not Found" (.error ()))
      "menu-items").result =
      (fetchStrapi Unit env0 (.response 503 "Service Unavailable" (.error ()))
        "menu-items").result ∧
    (fetchStrapiSingle Unit env0 (.response 404 "Not Found" (.error ()))
      "homepage").result = ⟨none, []⟩ ∧
    (fetchStrapiSingle Unit env0 (.response 404 "Not Found" (.error ()))
      "homepage").result =
      (fetchStrapiSingle Unit env0 (.response 503 "Service Unavailable" (.error ()))
        "homepage").result :=
  status_classification_cosmetic Unit env0 404 503 "Not Found" "Service Unavailable"
    (.error ()) (.error ()) (.error ()) (.error ()) "menu-items"
    (by decide) (by decide)

theorem downloadProd_shape (w : ImgWorld) (fullUrl : String) :
    (downloadProd w fullUrl).result = some fullUrl ∨
    ∃ fn, (downloadProd w fullUrl).result = some ("/uploads/" ++ fn) := by
  unfold downloadProd
  split
  · exact Or.inl rfl
  · split
    · exact Or.inl rfl
    · split
      · exact Or.inl rfl
      · split
        · exact Or.inl rfl
        · split
          · exact Or.inl rfl
          · split
            · exact Or.inl rfl
            · split
              · exact Or.inl rfl
              · exact Or.inr ⟨_, rfl⟩

/-- C4: for every input (null, undefined, a string that is empty, absolute,
relative, or filename-less) and every behaviour of the network and
filesystem oracles, downloadStrapiImage is total (every throw of the source
is a caught branch of the embedding) and its result is null, the
site-relative path "/uploads/" followed by the extracted filename, or the
absolute-ized remote URL downloadFullUrl used as fallback — it never fails
the caller. -/
theorem downloadStrapiImage_total_shape (env : Env) (w : ImgWorld)
    (url : Option String) :
    (downloadStrapiImage env w url).result = none ∨
    (downloadStrapiImage env w url).result =
      some (downloadFullUrl env (url.getD "")) ∨
    ∃ fn, (downloadStrapiImage env w url).result = some ("/uploads/" ++ fn) := by
  unfold downloadStrapiImage
  split
  · exact Or.inl rfl
  · split
    · rcases getStrapiMedia_shape env url with h | h
      · exact Or.inl h
      · exact Or.inr (Or.inl h)
    · split
      · rcases downloadProd_shape w (downloadFullUrl env (url.getD "")) with h | ⟨fn, h⟩
        · exact Or.inr (Or.inl h)
        · exact Or.inr (Or.inr ⟨fn, h⟩)
      · rcases getStrapiMedia_shape env url with h | h
        · exact Or.inl h
        · exact Or.inr (Or.inl h)

/-- C6: in production mode (dev flag off, prod flag on or mode equal to
"production"), for a truthy input whose URL parses, whose final path segment
is a nonempty filename, and whose download and file write succeed,
downloadStrapiImage fetches the resolved absolute URL, writes the received
bytes to cwd/public/uploads/filename (creating the directory when absent)
and returns the site-relative path "/uploads/" ++ filename. -/
theorem download_success_writes_and_path (env : Env) (w : ImgWorld)
    (u p fn : String) (status : Nat) (statusText : String) (buf : Bytes)
    (hdev : env.dev = false) (hprod : env.prod = true ∨ env.mode = "production")
    (hu : truthy (some u) = true)
    (hp : w.parsePathname (downloadFullUrl env u) = some p)
    (hfn : popSegment p = fn) (hfn0 : fn ≠ "")
    (hnet : w.net = .response status statusText (.ok buf))
    (hok : responseOk status = true)
    (hdir : w.dirExists = true ∨ w.mkdirThrows = false)
    (hw : w.writeThrows = false) :
    downloadStrapiImage env w (some u) =
      ⟨some ("/uploads/" ++ fn), [downloadFullUrl env u],
        [(w.cwd ++ "/public/uploads/" ++ fn, buf)],
        if w.dirExists then [] else [w.cwd ++ "/public/uploads"]⟩ := by
  have hpm : (env.prod || (env.mode == "production")) = true := by
    rcases hprod with h | h
    · rw [h]
      rfl
    · rw [h]
      simp
  have hdm : (!w.dirExists && w.mkdirThrows) = false := by
    rcases hdir with h | h
    · rw [h]
      rfl
    · rw [h]
      simp
  unfold downloadStrapiImage
  rw [if_neg (by rw [hu]; decide), if_neg (by rw [hdev]; decide), if_pos hpm]
  show downloadProd w (downloadFullUrl env u) = _
  unfold downloadProd
  rw [hp]
  simp only [hnet, hfn]
  rw [if_neg hfn0, if_neg (by rw [hok]; decide), if_neg (by rw [hdm]; decide),
    if_neg (by rw [hw]; decide)]
  rw [uploadsPath_eq]
  rfl

/-- C6 witness: the healthy world w0 in production mode caches the plate
image and returns its site-relative path. -/
theorem download_success_writes_and_path_witness :
    downloadStrapiImage env0 w0 (some "/uploads/plate.jpg") =
      ⟨some "/uploads/plate.jpg", ["https://cms.example.com/uploads/plate.jpg"],
        [("/site/public/uploads/plate.jpg", pngBytes)], ["/site/public/uploads"]⟩ := by
  have h := download_success_writes_and_path env0 w0 "/uploads/plate.jpg"
    "/uploads/plate.jpg" "plate.jpg" 200 "OK" pngBytes rfl (Or.inl rfl)
    (by decide) rfl (by decide) (by decide) rfl (by decide) (Or.inr rfl) rfl
  exact h.trans (by decide)

/-- C7: in dev mode, downloadStrapiImage returns exactly the value of
getStrapiMedia on the same input, with no fetch, no file write and no
directory creation. -/
theorem download_dev_bypass (env : Env) (w : ImgWorld) (url : Option String)
    (h : env.dev = true) :
    downloadStrapiImage env w url = ⟨getStrapiMedia env url, [], [], []⟩ := by
  unfold downloadStrapiImage
  split
  · rename_i ht
    have hg : getStrapiMedia env url = none := by
      unfold getStrapiMedia
      rw [if_pos ht]
    rw [hg]
  · simp [h]

/-- C7 witness: the dev environment returns the resolved media URL for the
plate image, untouched world. -/
theorem download_dev_bypass_witness :
    downloadStrapiImage envDev w0 (some "/uploads/plate.jpg") =
      ⟨getStrapiMedia envDev (some "/uploads/plate.jpg"), [], [], []⟩ :=
  download_dev_bypass envDev w0 (some "/uploads/plate.jpg") rfl

/-- C10: the empty string is treated exactly like an absent input at the
public interface: getStrapiMedia of the empty string is null regardless of
configuration, and downloadStrapiImage of the empty string returns null with
no network or filesystem effects, in every runtime mode; both agree with the
behaviour on the absent (none) input. -/
theorem empty_string_like_absent (env : Env) (w : ImgWorld) :
    getStrapiMedia env (some "") = none ∧
    getStrapiMedia env (some "") = getStrapiMedia env none ∧
    downloadStrapiImage env w (some "") = ⟨none, [], [], []⟩ ∧
    downloadStrapiImage env w (some "") = downloadStrapiImage env w none := by
  have ht : truthy (some "") = false := by decide
  have htn : truthy (none : Option String) = false := by decide
  refine ⟨getStrapiMedia_empty env, ?_, ?_, ?_⟩
  · rw [getStrapiMedia_empty env, getStrapiMedia_none env]
  · unfold downloadStrapiImage
    rw [if_pos ht]
  · unfold downloadStrapiImage
    rw [if_pos ht, if_pos htn]

/-- C5 counterexample: the input "ftp://cdn.example.com/x.jpg" is a
scheme-qualified absolute URL in the sense of the spec wording, yet with a
configured base URL getStrapiMedia does not return it unchanged: the test in
the code is the literal prefix "http", so the base URL is prepended. -/
theorem getStrapiMedia_schemeQualified_counterexample :
    schemeQualified "ftp://cdn.example.com/x.jpg" = true ∧
    getStrapiMedia env0 (some "ftp://cdn.example.com/x.jpg") ≠
      some "ftp://cdn.example.com/x.jpg" := by decide

/-- C5 amended: getStrapiMedia is a pure total function such that a null,
absent or empty input yields null; an input beginning with the literal
prefix "http" (rather than any scheme-qualified absolute URL) is returned
unchanged; a nonempty input not beginning with "http" yields null when no
base URL is configured and the concatenation of the base URL and the path
otherwise. -/
theorem getStrapiMedia_case_spec (env : Env) (url : Option String) :
    (url = none → getStrapiMedia env url = none) ∧
    (url = some "" → getStrapiMedia env url = none) ∧
    (∀ s, url = some s → startsWithStr s "http" = true →
      getStrapiMedia env url = some s) ∧
    (∀ s, url = some s → s ≠ "" → startsWithStr s "http" = false →
      (truthy env.strapiUrl = false → getStrapiMedia env url = none) ∧
      (truthy env.strapiUrl = true →
        getStrapiMedia env url = some (tmpl env.strapiUrl ++ s))) := by
  refine ⟨?_, ?_, ?_, ?_⟩
  · intro h
    subst h
    exact getStrapiMedia_none env
  · intro h
    subst h
    exact getStrapiMedia_empty env
  · intro s h hs
    subst h
    exact getStrapiMedia_http env s hs
  · intro s h hs0 hs
    subst h
    exact ⟨fun hb => getStrapiMedia_rel_unconfigured env s hs0 hs hb,
      fun hb => getStrapiMedia_rel env s hs0 hs hb⟩

/-- C5 witness: Scenario C of the spec — resolving "/uploads/plate.jpg"
against the base URL https://cms.example.com. -/
theorem getStrapiMedia_case_spec_witness :
    getStrapiMedia env0 (some "/uploads/plate.jpg") =
      some "https://cms.example.com/uploads/plate.jpg" := by
  have h := ((getStrapiMedia_case_spec env0 (some "/uploads/plate.jpg")).2.2.2
    "/uploads/plate.jpg" rfl (by decide) (by decide)).2 (by decide)
  exact h.trans (by decide)

/-- C8 counterexample: with a configured base URL that does not itself start
with "http" (a plausible misconfiguration, e.g. lacking the scheme), a
second application of getStrapiMedia prepends the base URL again, so the
claimed idempotence for every configuration fails. -/
theorem getStrapiMedia_idem_counterexample :
    getStrapiMedia envNoScheme
        (getStrapiMedia envNoScheme (some "/uploads/plate.jpg")) ≠
      getStrapiMedia envNoScheme (some "/uploads/plate.jpg") := by decide

/-- C8 amended: getStrapiMedia is idempotent for every input whenever the
base URL is unconfigured or itself begins with "http" (as every real
http/https base URL does); moreover, for every configuration, an input
already beginning with "http" is returned unchanged, never re-prefixed. -/
theorem getStrapiMedia_idem_of_httpBase (env : Env)
    (h : truthy env.strapiUrl = false ∨
      startsWithStr (tmpl env.strapiUrl) "http" = true) (x : Option String) :
    getStrapiMedia env (getStrapiMedia env x) = getStrapiMedia env x ∧
    (∀ s, startsWithStr s "http" = true → getStrapiMedia env (some s) = some s) := by
  refine ⟨?_, fun s hs => getStrapiMedia_http env s hs⟩
  cases x with
  | none => rw [getStrapiMedia_none env, getStrapiMedia_none env]
  | some s =>
    by_cases hs0 : s = ""
    · subst hs0
      rw [getStrapiMedia_empty env, getStrapiMedia_none env]
    · cases hs : startsWithStr s "http" with
      | true => rw [getStrapiMedia_http env s hs, getStrapiMedia_http env s hs]
      | false =>
        cases hb : truthy env.strapiUrl with
        | false =>
          rw [getStrapiMedia_rel_unconfigured env s hs0 hs hb,
            getStrapiMedia_none env]
        | true =>
          rcases h with h | h
          · rw [hb] at h
            exact absurd h (by decide)
          · rw [getStrapiMedia_rel env s hs0 hs hb]
            exact getStrapiMedia_http env (tmpl env.strapiUrl ++ s)
              (startsWithStr_append (tmpl env.strapiUrl) s "http" h)

/-- C8 witness: with the https base URL, resolving the plate image twice
gives the same value as resolving it once. -/
theorem getStrapiMedia_idem_of_httpBase_witness :
    getStrapiMedia env0 (getStrapiMedia env0 (some "/uploads/plate.jpg")) =
      getStrapiMedia env0 (some "/uploads/plate.jpg") :=
  (getStrapiMedia_idem_of_httpBase env0 (Or.inr (by decide))
    (some "/uploads/plate.jpg")).1

/-- C9 counterexample: the empty string does not begin with "http", the base
URL is configured, and yet getStrapiMedia does not prepend the base URL to
it — it returns null, because the empty string is falsy; so the claim is
false as stated for the empty string. -/
theorem http_prefix_empty_counterexample :
    startsWithStr "" "http" = false ∧
    truthy env0.strapiUrl = true ∧
    getStrapiMedia env0 (some "") ≠ some (tmpl env0.strapiUrl ++ "") := by decide

/-- C9 amended: the absoluteness test is the literal, case-sensitive string
prefix "http": every input beginning with those four characters (including
non-URLs such as "httpfoo/bar") is returned unchanged by getStrapiMedia and
is used as-is by downloadStrapiImage (downloadFullUrl does not prepend the
base URL), while every nonempty string not beginning with "http" (including
"HTTP://..." in other casing) is treated as relative: downloadFullUrl
prepends the interpolated base URL, and getStrapiMedia prepends the
configured base URL. -/
theorem http_prefix_literal_check (env : Env) (s : String) :
    (startsWithStr s "http" = true →
      getStrapiMedia env (some s) = some s ∧ downloadFullUrl env s = s) ∧
    (s ≠ "" → startsWithStr s "http" = false →
      downloadFullUrl env s = tmpl env.strapiUrl ++ s ∧
      (truthy env.strapiUrl = true →
        getStrapiMedia env (some s) = some (tmpl env.strapiUrl ++ s))) := by
  constructor
  · intro hs
    refine ⟨getStrapiMedia_http env s hs, ?_⟩
    unfold downloadFullUrl
    rw [if_pos hs]
  · intro hs0 hs
    refine ⟨?_, fun hb => getStrapiMedia_rel env s hs0 hs hb⟩
    unfold downloadFullUrl
    rw [if_neg (by rw [hs]; decide)]

/-- C9 witness: the upper-case "HTTP://cdn.example.com/x.jpg" is treated as
relative and gets the base URL prepended by downloadFullUrl. -/
theorem http_prefix_literal_check_witness :
    downloadFullUrl env0 "HTTP://cdn.example.com/x.jpg" =
      "https://cms.example.comHTTP://cdn.example.com/x.jpg" := by
  have h := ((http_prefix_literal_check env0 "HTTP://cdn.example.com/x.jpg").2
    (by decide) (by decide)).1
  exact h.trans (by decide)

end Strapi
